import Mathlib

/-!
Verification of the session/credential domain model of the
matrix-authentication-service repository: the PKCE challenge verifier,
the backend-generic entity model and its serialization, the compat
(legacy) password-login handler, and the account-emails form handler.

Entities and operations are shallowly embedded from the Rust sources in
`crates/data-model/src/lib.rs`, `crates/handlers/src/compat/login.rs` and
`crates/handlers/src/views/account/emails.rs`. Collaborators that live in
other crates of the repository (the `oauth2-types` challenge methods, the
`mas-storage` operations, token/device generation) are modelled from the
specification, as noted on each definition.
-/

namespace MasModel

/-! ### SHA-256 and base64url (no padding)

Modelled from the spec: the `S256` code-challenge method compares
`base64url_no_pad(sha256(verifier))` with the stored challenge. The hash
and the encoding live in external crates (`sha2`, `base64`), so they are
embedded here as executable reference definitions of the standard
algorithms over byte lists (`Nat` values below 256). -/

/-- Truncate to a 32-bit word. -/
def w32 (n : Nat) : Nat := n % 2 ^ 32

/-- Right-rotation of a 32-bit word by `b` bits. -/
def rotr (b n : Nat) : Nat := w32 ((n >>> b) ||| (n <<< (32 - b)))

def smallSigma0 (x : Nat) : Nat := (rotr 7 x) ^^^ (rotr 18 x) ^^^ (x >>> 3)

def smallSigma1 (x : Nat) : Nat := (rotr 17 x) ^^^ (rotr 19 x) ^^^ (x >>> 10)

def bigSigma0 (x : Nat) : Nat := (rotr 2 x) ^^^ (rotr 13 x) ^^^ (rotr 22 x)

def bigSigma1 (x : Nat) : Nat := (rotr 6 x) ^^^ (rotr 11 x) ^^^ (rotr 25 x)

/-- The 64 SHA-256 round constants, written in decimal. -/
def sha256K : List Nat :=
  [1116352408, 1899447441, 3049323471, 3921009573, 961987163,
   1508970993, 2453635748, 2870763221, 3624381080, 310598401,
   607225278, 1426881987, 1925078388, 2162078206, 2614888103,
   3248222580, 3835390401, 4022224774, 264347078, 604807628,
   770255983, 1249150122, 1555081692, 1996064986, 2554220882,
   2821834349, 2952996808, 3210313671, 3336571891, 3584528711,
   113926993, 338241895, 666307205, 773529912, 1294757372,
   1396182291, 1695183700, 1986661051, 2177026350, 2456956037,
   2730485921, 2820302411, 3259730800, 3345764771, 3516065817,
   3600352804, 4094571909, 275423344, 430227734, 506948616,
   659060556, 883997877, 958139571, 1322822218, 1537002063,
   1747873779, 1955562222, 2024104815, 2227730452, 2361852424,
   2428436474, 2756734187, 3204031479, 3329325298]

/-- The SHA-256 initial hash value, written in decimal. -/
def sha256Init : List Nat :=
  [1779033703, 3144134277, 1013904242, 2773480762,
   1359893119, 2600822924, 528734635, 1541459225]

/-- Big-endian byte decomposition of `n` into `k` bytes. -/
def toBytesBE : Nat → Nat → List Nat
  | 0, _ => []
  | k + 1, n => toBytesBE k (n >>> 8) ++ [n &&& 0xFF]

/-- UTF-8 encoding of a single code point. -/
def utf8Bytes (c : Nat) : List Nat :=
  if c < 0x80 then [c]
  else if c < 0x800 then
    [0xC0 ||| (c >>> 6), 0x80 ||| (c &&& 0x3F)]
  else if c < 0x10000 then
    [0xE0 ||| (c >>> 12), 0x80 ||| ((c >>> 6) &&& 0x3F), 0x80 ||| (c &&& 0x3F)]
  else
    [0xF0 ||| (c >>> 18), 0x80 ||| ((c >>> 12) &&& 0x3F),
     0x80 ||| ((c >>> 6) &&& 0x3F), 0x80 ||| (c &&& 0x3F)]

/-- The UTF-8 bytes of a string. -/
def strBytes (s : String) : List Nat :=
  (s.data.map (fun ch => utf8Bytes ch.toNat)).flatten

/-- SHA-256 padding: append `0x80`, zeros, and the 64-bit bit length. -/
def padMessage (m : List Nat) : List Nat :=
  let len := m.length
  let padZeros := (119 - len % 64) % 64
  m ++ [0x80] ++ List.replicate padZeros 0 ++ toBytesBE 8 (8 * len)

/-- Group bytes four at a time into big-endian 32-bit words. -/
def bytesToWords : List Nat → List Nat
  | a :: b :: c :: d :: rest =>
    ((a <<< 24) ||| (b <<< 16) ||| (c <<< 8) ||| d) :: bytesToWords rest
  | _ => []

/-- Extend a 16-word block to the 64-word message schedule (48 steps). -/
def extendSchedule : Nat → List Nat → List Nat
  | 0, w => w
  | k + 1, w =>
    let n := w.length
    let wi := w32 (w.getD (n - 16) 0 + smallSigma0 (w.getD (n - 15) 0) +
      w.getD (n - 7) 0 + smallSigma1 (w.getD (n - 2) 0))
    extendSchedule k (w ++ [wi])

/-- One SHA-256 compression round on the eight-word working state. -/
def sha256Round (st : List Nat) (k w : Nat) : List Nat :=
  match st with
  | [a, b, c, d, e, f, g, h] =>
    let ch := (e &&& f) ^^^ ((e ^^^ 0xFFFFFFFF) &&& g)
    let maj := (a &&& b) ^^^ (a &&& c) ^^^ (b &&& c)
    let t1 := w32 (h + bigSigma1 e + ch + k + w)
    let t2 := w32 (bigSigma0 a + maj)
    [w32 (t1 + t2), a, b, c, w32 (d + t1), e, f, g]
  | st => st

/-- Compress one 64-byte block into the running hash value. -/
def sha256Block (hv : List Nat) (block : List Nat) : List Nat :=
  let w := extendSchedule 48 (bytesToWords block)
  let st := (List.zip sha256K w).foldl (fun st kw => sha256Round st kw.1 kw.2) hv
  (List.zip hv st).map (fun p => w32 (p.1 + p.2))

/-- Split a byte list into 64-byte chunks; the fuel bounds the number of
chunks, `l.length` is always enough. -/
def chunks64Fuel : Nat → List Nat → List (List Nat)
  | 0, _ => []
  | _ + 1, [] => []
  | fuel + 1, l => l.take 64 :: chunks64Fuel fuel (l.drop 64)

/-- Split a byte list into 64-byte chunks. -/
def chunks64 (l : List Nat) : List (List Nat) := chunks64Fuel l.length l

/-- SHA-256 digest (32 bytes) of a byte list. -/
def sha256Bytes (m : List Nat) : List Nat :=
  let hv := (chunks64 (padMessage m)).foldl sha256Block sha256Init
  (hv.map (toBytesBE 4)).flatten

/-- SHA-256 digest of the UTF-8 bytes of a string. -/
def sha256 (s : String) : List Nat := sha256Bytes (strBytes s)

/-- The URL-safe base64 alphabet. -/
def b64urlAlphabet : List Char :=
  "ABCDEFGHIJKLMNOPQRSTUVWXYZabcdefghijklmnopqrstuvwxyz0123456789-_".data

def b64urlChar (n : Nat) : Char := b64urlAlphabet.getD n 'A'

/-- base64url encoding without padding, three input bytes at a time. -/
def base64urlChars : List Nat → List Char
  | [] => []
  | [a] => [b64urlChar (a >>> 2), b64urlChar ((a &&& 3) <<< 4)]
  | [a, b] =>
    [b64urlChar (a >>> 2), b64urlChar (((a &&& 3) <<< 4) ||| (b >>> 4)),
     b64urlChar ((b &&& 15) <<< 2)]
  | a :: b :: c :: rest =>
    b64urlChar (a >>> 2) :: b64urlChar (((a &&& 3) <<< 4) ||| (b >>> 4)) ::
    b64urlChar (((b &&& 15) <<< 2) ||| (c >>> 6)) :: b64urlChar (c &&& 63) ::
    base64urlChars rest

/-- base64url (no padding) of a byte list, as a string. -/
def base64UrlNoPad (bytes : List Nat) : String := String.mk (base64urlChars bytes)

/-! ### PKCE (`crates/data-model/src/lib.rs`, `Pkce`) -/

/-- Modelled from the spec: `oauth2_types::pkce::CodeChallengeMethod` is not
under `src/`; the spec admits exactly the two supported methods, any other
method being rejected at construction time. -/
inductive CodeChallengeMethod
  | plain
  | s256
  deriving DecidableEq

/-- Modelled from the spec: `CodeChallengeMethod::verify(challenge, verifier)`.
For `plain`, valid iff `verifier == challenge` byte-exactly; for `S256`, valid
iff `base64url_no_pad(sha256(verifier)) == challenge` byte-exactly. -/
def CodeChallengeMethod.verify : CodeChallengeMethod → String → String → Bool
  | .plain, challenge, verifier => verifier == challenge
  | .s256, challenge, verifier => base64UrlNoPad (sha256 verifier) == challenge

/-- `Pkce` (data-model lib.rs): both fields are private in the source. -/
structure Pkce where
  challenge_method : CodeChallengeMethod
  challenge : String
  deriving DecidableEq

/-- `Pkce::new(challenge_method, challenge)`. -/
def Pkce.new (challenge_method : CodeChallengeMethod) (challenge : String) : Pkce :=
  { challenge_method, challenge }

/-- `Pkce::verify(&self, verifier)`: delegates to the challenge method. -/
def Pkce.verify (p : Pkce) (verifier : String) : Bool :=
  p.challenge_method.verify p.challenge verifier

/-! ### Entity model (`crates/data-model/src/lib.rs`)

The Rust entities are generic over a `StorageBackend` trait carrying one
opaque associated data type per entity kind; here the trait is a bundle of
types. `DateTime<Utc>` is modelled as `Int` (a timestamp), `Duration` as
`Int`, and `oauth2_types::scope::Scope` as a `String`. -/

structure StorageBackend where
  UserData : Type
  AuthenticationData : Type
  BrowserSessionData : Type
  ClientData : Type
  SessionData : Type
  AuthorizationCodeData : Type
  AccessTokenData : Type

/-- `oauth2_types::scope::Scope`, modelled as its string form. -/
abbrev Scope := String

structure User (T : StorageBackend) where
  data : T.UserData
  username : String
  sub : String

structure Authentication (T : StorageBackend) where
  data : T.AuthenticationData
  created_at : Int

structure BrowserSession (T : StorageBackend) where
  data : T.BrowserSessionData
  user : User T
  created_at : Int
  last_authentication : Option (Authentication T)

structure Client (T : StorageBackend) where
  data : T.ClientData
  client_id : String

structure Session (T : StorageBackend) where
  data : T.SessionData
  browser_session : Option (BrowserSession T)
  client : Client T
  scope : Scope

structure AuthorizationCode (T : StorageBackend) where
  data : T.AuthorizationCodeData
  code : String
  pkce : Pkce

structure AccessToken (T : StorageBackend) where
  data : T.AccessTokenData
  jti : String
  token : String
  expires_after : Int
  created_at : Int

/-- `User::samples()`; the `Default::default()` value of the backend data is
passed explicitly. -/
def User.samples (T : StorageBackend) (dUser : T.UserData) : List (User T) :=
  [{ data := dUser, username := "john", sub := "123-456" }]

/-- `BrowserSession::samples()`; `Utc::now()` is the explicit `now` argument,
and the two `Default::default()` values are passed explicitly. -/
def BrowserSession.samples (T : StorageBackend) (dBS : T.BrowserSessionData)
    (dUser : T.UserData) (now : Int) : List (BrowserSession T) :=
  (User.samples T dUser).map fun user =>
    { data := dBS, user, created_at := now, last_authentication := none }

/-- A backend whose data attachments are all trivial. -/
abbrev unitBackend : StorageBackend :=
  { UserData := Unit, AuthenticationData := Unit, BrowserSessionData := Unit,
    ClientData := Unit, SessionData := Unit, AuthorizationCodeData := Unit,
    AccessTokenData := Unit }

/-- A backend whose data attachments are all `Nat`, to exhibit values that
differ only in their `data` fields. -/
abbrev natBackend : StorageBackend :=
  { UserData := Nat, AuthenticationData := Nat, BrowserSessionData := Nat,
    ClientData := Nat, SessionData := Nat, AuthorizationCodeData := Nat,
    AccessTokenData := Nat }

/-! ### Serialization

Each `#[derive(Serialize)]` entity marks its `data` field
`#[serde(skip_serializing)]`; the derived serializer emits the remaining
fields in declaration order. `AccessToken` does not derive `Serialize`, so no
serializer is defined for it. -/

inductive Json
  | str : String → Json
  | num : Int → Json
  | null : Json
  | obj : List (String × Json) → Json

/-- Serde name of a challenge method (`oauth2-types` renames `s256` to
`S256`); modelled from the spec. -/
def CodeChallengeMethod.serdeName : CodeChallengeMethod → String
  | .plain => "plain"
  | .s256 => "S256"

def serializeUser {T : StorageBackend} (u : User T) : Json :=
  .obj [("username", .str u.username), ("sub", .str u.sub)]

def serializeAuthentication {T : StorageBackend} (a : Authentication T) : Json :=
  .obj [("created_at", .num a.created_at)]

def serializeBrowserSession {T : StorageBackend} (s : BrowserSession T) : Json :=
  .obj [("user", serializeUser s.user),
        ("created_at", .num s.created_at),
        ("last_authentication",
          match s.last_authentication with
          | none => .null
          | some a => serializeAuthentication a)]

def serializeClient {T : StorageBackend} (c : Client T) : Json :=
  .obj [("client_id", .str c.client_id)]

def serializeSession {T : StorageBackend} (s : Session T) : Json :=
  .obj [("browser_session",
          match s.browser_session with
          | none => .null
          | some b => serializeBrowserSession b),
        ("client", serializeClient s.client),
        ("scope", .str s.scope)]

def serializePkce (p : Pkce) : Json :=
  .obj [("challenge_method", .str p.challenge_method.serdeName),
        ("challenge", .str p.challenge)]

def serializeAuthorizationCode {T : StorageBackend} (c : AuthorizationCode T) : Json :=
  .obj [("code", .str c.code), ("pkce", serializePkce c.pkce)]

/-! Agreement on every field except the opaque `data` attachments,
recursively through nested entities. -/

def User.sameVisible {T : StorageBackend} (u₁ u₂ : User T) : Prop :=
  u₁.username = u₂.username ∧ u₁.sub = u₂.sub

def Authentication.sameVisible {T : StorageBackend} (a₁ a₂ : Authentication T) : Prop :=
  a₁.created_at = a₂.created_at

def optSame {α : Type} (r : α → α → Prop) : Option α → Option α → Prop
  | none, none => True
  | some a, some b => r a b
  | _, _ => False

def BrowserSession.sameVisible {T : StorageBackend} (s₁ s₂ : BrowserSession T) : Prop :=
  s₁.user.sameVisible s₂.user ∧ s₁.created_at = s₂.created_at ∧
    optSame Authentication.sameVisible s₁.last_authentication s₂.last_authentication

def Client.sameVisible {T : StorageBackend} (c₁ c₂ : Client T) : Prop :=
  c₁.client_id = c₂.client_id

def Session.sameVisible {T : StorageBackend} (s₁ s₂ : Session T) : Prop :=
  optSame BrowserSession.sameVisible s₁.browser_session s₂.browser_session ∧
    s₁.client.sameVisible s₂.client ∧ s₁.scope = s₂.scope

def AuthorizationCode.sameVisible {T : StorageBackend} (c₁ c₂ : AuthorizationCode T) : Prop :=
  c₁.code = c₂.code ∧ c₁.pkce = c₂.pkce

/-! ### Compat login handler (`crates/handlers/src/compat/login.rs`)

The handler is async Rust over a connection pool, a config and collaborator
functions from `mas-storage`; it is embedded as a pure function whose
effectful collaborators are arguments: the outcome of `pool.acquire()`, the
two freshly generated random values, and the `compat_login` storage
operation. Errors carried inside `RouteError::Internal` (boxed
`dyn Error`) and `sqlx::Error` are modelled as strings. -/

/-- `mas_data_model::Device` (not under `src/`): an opaque device id,
generated randomly per login. -/
structure Device where
  id : String
  deriving DecidableEq

/-- Modelled from the spec: `CompatAccessToken` has the same shape as
`AccessToken` (jti, token, expires_after, created_at); its crate is not under
`src/`. The backend data attachment is omitted, the handler never reads it. -/
structure CompatAccessToken where
  jti : String
  token : String
  expires_after : Int
  created_at : Int

/-- Modelled from the spec: `CompatSession` links a User and a Device; its
crate is not under `src/`. -/
structure CompatSession (T : StorageBackend) where
  user : User T
  device : Device

/-- Modelled from the spec: the structured error reported by the
`compat_login` storage collaborator distinguishes an authentication failure
(bad username/password) from a backend/storage failure (connectivity,
constraint violation). -/
inductive CompatLoginError
  | authenticationFailure
  | storageFailure (e : String)
  deriving DecidableEq

inductive Identifier
  | user (user : String)
  | unsupported
  deriving DecidableEq

inductive RequestBody
  | password (identifier : Identifier) (password : String)
  | unsupported
  deriving DecidableEq

structure ResponseBody (T : StorageBackend) where
  access_token : String
  device_id : Device
  user_id : String

inductive RouteError
  | internal (e : String)
  | unsupported
  | loginFailed
  deriving DecidableEq

/-- A rendered Matrix error (`MatrixError` of the handlers crate):
errcode, message and HTTP status. -/
structure MatrixError where
  errcode : String
  error : String
  status : Nat
  deriving DecidableEq

/-- `impl IntoResponse for RouteError`. -/
def RouteError.into_response : RouteError → MatrixError
  | .internal _ => { errcode := "M_UNKNOWN", error := "Internal server error", status := 500 }
  | .unsupported => { errcode := "M_UNRECOGNIZED", error := "Invalid login type", status := 400 }
  | .loginFailed => { errcode := "M_UNAUTHORIZED", error := "Invalid username/password", status := 403 }

/-- The compat login `post` handler. Arguments in source order:
`acquire` is the outcome of `pool.acquire()` (its error converts to
`RouteError::Internal` via `From<sqlx::Error>`); `homeserver` is
`config.homeserver`; `input` is the parsed JSON body; `genToken` and
`genDevice` are the values produced by `TokenType::CompatAccessToken.generate`
and `Device::generate` from `thread_rng`; `compat_login` is the storage
collaborator, whose every error is mapped to `RouteError::LoginFailed`. -/
def compatPost (T : StorageBackend)
    (acquire : Except String Unit)
    (homeserver : String)
    (input : RequestBody)
    (genToken : String) (genDevice : Device)
    (compat_login : String → String → Device → String →
      Except CompatLoginError (CompatAccessToken × CompatSession T)) :
    Except RouteError (ResponseBody T) :=
  match acquire with
  | .error e => .error (.internal e)
  | .ok _ =>
    match input with
    | .password (.user user) password =>
      let token := genToken
      let device := genDevice
      match compat_login user password device token with
      | .error _ => .error .loginFailed
      | .ok (token, session) =>
        let user_id := "@" ++ session.user.username ++ ":" ++ homeserver
        .ok { access_token := token.token, device_id := session.device, user_id }
    | _ => .error .unsupported

/-! ### Account emails handler (`crates/handlers/src/views/account/emails.rs`)

The `post` handler runs inside one database transaction: it applies the form
action's storage mutations to the transaction, re-renders the page reading
through the transaction, and only then commits. It is embedded as a function
from the committed database state `db` to (outcome, committed database
state): the transaction state has type `D`, collaborators are arguments, and
dropping the transaction on error restores `db`. Rejections are strings. -/

inductive Form
  | add (email : String)
  | resendConfirmation (data : String)
  | setPrimary (data : String)
  | remove (data : String)
  deriving DecidableEq

/-- `mas_storage::user::UserEmail` (not under `src/`): an id and an address,
the two fields the handler reads. -/
structure UserEmail where
  id : Int
  email : String
  deriving DecidableEq

/-- The collaborator operations the emails `post` handler calls, each
threading or reading the transaction state `D`. `parseId` is
`str::parse::<i64>`, `parseAddress` is `str::parse::<Address>`,
`send_verification_email` is the mailer call, `render` re-renders the page
reading through the transaction, and `commit` is `txn.commit()`. -/
structure EmailsDeps (D R : Type) where
  add_user_email : D → String → Except String D
  get_user_email : D → Int → Except String UserEmail
  remove_user_email : D → UserEmail → Except String D
  set_user_email_as_primary : D → UserEmail → Except String D
  parseId : String → Except String Int
  parseAddress : String → Except String String
  send_verification_email : String → Except String Unit
  render : D → Except String R
  commit : D → Except String D

/-- The `match form` block of the emails `post` handler: the storage
mutations (and the resend-confirmation email send) staged on the
transaction state. -/
def emailsStage {D R : Type} (deps : EmailsDeps D R) (txn : D) :
    Form → Except String D
  | .add email => deps.add_user_email txn email
  | .remove data => do
    let id ← deps.parseId data
    let email ← deps.get_user_email txn id
    deps.remove_user_email txn email
  | .resendConfirmation data => do
    let id ← deps.parseId data
    let email ← deps.get_user_email txn id
    let addr ← deps.parseAddress email.email
    deps.send_verification_email addr
    pure txn
  | .setPrimary data => do
    let id ← deps.parseId data
    let email ← deps.get_user_email txn id
    deps.set_user_email_as_primary txn email

/-- The emails `post` handler: stage the form action on the transaction,
re-render through the transaction, then commit; any failure before the
commit drops the transaction, leaving the committed state `db` unchanged. -/
def emailsPost {D R : Type} (deps : EmailsDeps D R) (db : D) (form : Form) :
    Except String R × D :=
  match emailsStage deps db form with
  | .error e => (.error e, db)
  | .ok txn =>
    match deps.render txn with
    | .error e => (.error e, db)
    | .ok reply =>
      match deps.commit txn with
      | .error e => (.error e, db)
      | .ok db2 => (.ok reply, db2)

/-- Erase the `created_at` field of a browser session, to compare samples
taken at different instants on their remaining fields. -/
def BrowserSession.forgetTime {T : StorageBackend} (s : BrowserSession T) :
    BrowserSession T :=
  { s with created_at := 0 }

/-- A concrete dependency bundle for the emails handler whose page
re-render fails, every other collaborator succeeding. -/
def emailsDepsFailRender : EmailsDeps Nat Unit where
  add_user_email d _ := .ok (d + 1)
  get_user_email _ i := .ok { id := i, email := "a@b.test" }
  remove_user_email d _ := .ok (d + 2)
  set_user_email_as_primary d _ := .ok (d + 3)
  parseId _ := .ok 1
  parseAddress s := .ok s
  send_verification_email _ := .ok ()
  render _ := .error "template failure"
  commit d := .ok d

/-! ## Theorems -/

/-- C1: `Pkce::verify` matches the method-specific reference definition:
with method `plain` and challenge `c` it accepts `v` iff `v == c`
byte-exactly; with method `S256` it accepts `v` iff
`base64url_no_pad(sha256(v)) == c`; in particular
`Pkce::new(S256, base64url_no_pad(sha256(v)))` accepts `v`, and a challenge
differing from `base64url_no_pad(sha256(v))` rejects `v`. -/
theorem pkce_verify_matches_reference (c v : String) :
    ((Pkce.new .plain c).verify v = (v == c)) ∧
    ((Pkce.new .s256 c).verify v = (base64UrlNoPad (sha256 v) == c)) ∧
    ((Pkce.new .s256 (base64UrlNoPad (sha256 v))).verify v = true) ∧
    (base64UrlNoPad (sha256 v) ≠ c → (Pkce.new .s256 c).verify v = false) := by
  refine ⟨rfl, rfl, ?_, fun h => ?_⟩
  · simp [Pkce.new, Pkce.verify, CodeChallengeMethod.verify]
  · simp [Pkce.new, Pkce.verify, CodeChallengeMethod.verify, h]

/-- C1 witness: the empty verifier hashes to something other than the
challenge `"x"`, and the `S256` check rejects it there. -/
theorem pkce_verify_matches_reference_witness :
    base64UrlNoPad (sha256 "") ≠ "x" ∧ (Pkce.new .s256 "x").verify "" = false :=
  ⟨by decide, (pkce_verify_matches_reference "x" "").2.2.2 (by decide)⟩

/-- C8: the challenge_method/challenge pair of a `Pkce` value is fixed at
creation: `Pkce::new(m, c)` stores exactly `m` and `c`, and `verify` is a
pure function of the stored pair and the verifier (it takes the value
immutably and the fields it reads are exactly those stored by `new`). -/
theorem pkce_fields_fixed_at_creation (m : CodeChallengeMethod) (c v : String) :
    (Pkce.new m c).challenge_method = m ∧ (Pkce.new m c).challenge = c ∧
    (Pkce.new m c).verify v = CodeChallengeMethod.verify m c v :=
  ⟨rfl, rfl, rfl⟩

/-- C9: `Pkce::verify` is total: for every `Pkce` value (any supported
method, any challenge) and every verifier string, it returns a boolean. -/
theorem pkce_verify_total (p : Pkce) (v : String) :
    p.verify v = true ∨ p.verify v = false := by
  cases p.verify v
  · exact Or.inr rfl
  · exact Or.inl rfl

/-- C6 counterexample: two calls to `BrowserSession::samples()` at different
instants (here timestamps 0 and 1) return different lists, because the
source sets `created_at` to `Utc::now()`. -/
theorem browser_session_samples_not_deterministic :
    BrowserSession.samples unitBackend () () 0 ≠ BrowserSession.samples unitBackend () () 1 := by
  intro h
  have h2 := congrArg (fun l => l.map fun s => s.created_at) h
  simp [BrowserSession.samples, User.samples] at h2

/-- C6 amended: `User::samples()` is deterministic (a fixed singleton list);
`BrowserSession::samples()` is deterministic except for `created_at`, which
is the clock reading at the call — two calls agree on every other field, and
two calls at the same instant return equal lists. -/
theorem samples_deterministic_amended (T : StorageBackend)
    (dUser : T.UserData) (dBS : T.BrowserSessionData) (t₁ t₂ : Int) :
    User.samples T dUser = [{ data := dUser, username := "john", sub := "123-456" }] ∧
    (BrowserSession.samples T dBS dUser t₁).map (fun s => s.created_at) = [t₁] ∧
    (BrowserSession.samples T dBS dUser t₁).map BrowserSession.forgetTime
      = (BrowserSession.samples T dBS dUser t₂).map BrowserSession.forgetTime :=
  ⟨rfl, rfl, rfl⟩

theorem serializeUser_congr {T : StorageBackend} {u₁ u₂ : User T}
    (h : u₁.sameVisible u₂) : serializeUser u₁ = serializeUser u₂ := by
  obtain ⟨h1, h2⟩ := h
  simp [serializeUser, h1, h2]

theorem serializeAuthentication_congr {T : StorageBackend} {a₁ a₂ : Authentication T}
    (h : a₁.sameVisible a₂) : serializeAuthentication a₁ = serializeAuthentication a₂ := by
  unfold Authentication.sameVisible at h
  simp [serializeAuthentication, h]

theorem serializeBrowserSession_congr {T : StorageBackend} {s₁ s₂ : BrowserSession T}
    (h : s₁.sameVisible s₂) : serializeBrowserSession s₁ = serializeBrowserSession s₂ := by
  obtain ⟨d₁, u₁, t₁, l₁⟩ := s₁
  obtain ⟨d₂, u₂, t₂, l₂⟩ := s₂
  obtain ⟨hu, ht, hl⟩ := h
  subst ht
  cases l₁ with
  | none =>
    cases l₂ with
    | none => simp [serializeBrowserSession, serializeUser_congr hu]
    | some b => exact (hl : False).elim
  | some a =>
    cases l₂ with
    | none => exact (hl : False).elim
    | some b =>
      have hab := serializeAuthentication_congr (show a.sameVisible b from hl)
      simp [serializeBrowserSession, serializeUser_congr hu, hab]

theorem serializeClient_congr {T : StorageBackend} {c₁ c₂ : Client T}
    (h : c₁.sameVisible c₂) : serializeClient c₁ = serializeClient c₂ := by
  unfold Client.sameVisible at h
  simp [serializeClient, h]

theorem serializeSession_congr {T : StorageBackend} {s₁ s₂ : Session T}
    (h : s₁.sameVisible s₂) : serializeSession s₁ = serializeSession s₂ := by
  obtain ⟨d₁, b₁, c₁, sc₁⟩ := s₁
  obtain ⟨d₂, b₂, c₂, sc₂⟩ := s₂
  obtain ⟨hb, hc, hs⟩ := h
  subst hs
  cases b₁ with
  | none =>
    cases b₂ with
    | none => simp [serializeSession, serializeClient_congr hc]
    | some b => exact (hb : False).elim
  | some a =>
    cases b₂ with
    | none => exact (hb : False).elim
    | some b =>
      have hab := serializeBrowserSession_congr (show a.sameVisible b from hb)
      simp [serializeSession, serializeClient_congr hc, hab]

theorem serializeAuthorizationCode_congr {T : StorageBackend} {c₁ c₂ : AuthorizationCode T}
    (h : c₁.sameVisible c₂) :
    serializeAuthorizationCode c₁ = serializeAuthorizationCode c₂ := by
  obtain ⟨h1, h2⟩ := h
  simp [serializeAuthorizationCode, h1, h2]

/-- C7: externally-visible serialization never depends on the
backend-supplied opaque `data` attachment: for each entity type deriving
`Serialize` (User, Authentication, BrowserSession, Client, Session,
AuthorizationCode), two values agreeing on every field but the `data`
attachments — recursively through nested entities — serialize identically.
(`AccessToken` derives no `Serialize`, so no serializer exists for it.) -/
theorem serialization_skips_data (T : StorageBackend) :
    (∀ u₁ u₂ : User T, u₁.sameVisible u₂ → serializeUser u₁ = serializeUser u₂) ∧
    (∀ a₁ a₂ : Authentication T, a₁.sameVisible a₂ →
      serializeAuthentication a₁ = serializeAuthentication a₂) ∧
    (∀ s₁ s₂ : BrowserSession T, s₁.sameVisible s₂ →
      serializeBrowserSession s₁ = serializeBrowserSession s₂) ∧
    (∀ c₁ c₂ : Client T, c₁.sameVisible c₂ → serializeClient c₁ = serializeClient c₂) ∧
    (∀ s₁ s₂ : Session T, s₁.sameVisible s₂ → serializeSession s₁ = serializeSession s₂) ∧
    (∀ c₁ c₂ : AuthorizationCode T, c₁.sameVisible c₂ →
      serializeAuthorizationCode c₁ = serializeAuthorizationCode c₂) :=
  ⟨fun _ _ => serializeUser_congr, fun _ _ => serializeAuthentication_congr,
   fun _ _ => serializeBrowserSession_congr, fun _ _ => serializeClient_congr,
   fun _ _ => serializeSession_congr, fun _ _ => serializeAuthorizationCode_congr⟩

/-- C7 witness: two users over a backend with `Nat` data attachments, equal
except for `data` (0 vs 1), serialize to the same JSON. -/
theorem serialization_skips_data_witness :
    User.sameVisible (T := natBackend)
      { data := 0, username := "john", sub := "123-456" }
      { data := 1, username := "john", sub := "123-456" } ∧
    serializeUser (T := natBackend)
      { data := 0, username := "john", sub := "123-456" }
      = serializeUser (T := natBackend)
          { data := 1, username := "john", sub := "123-456" } :=
  ⟨⟨rfl, rfl⟩, (serialization_skips_data natBackend).1 _ _ ⟨rfl, rfl⟩⟩

/-- C2 counterexample: when the `compat_login` collaborator reports a
backend/storage failure, the handler returns `LoginFailed` — the
authentication-failure kind, rendered `M_UNAUTHORIZED`/403 — not the
`Internal` kind: `compat_login(...).map_err(|_| RouteError::LoginFailed)`
collapses every error of the storage collaborator. -/
theorem compat_storage_failure_mapped_to_login_failed :
    compatPost unitBackend (.ok ()) "example.com"
        (.password (.user "john") "hunter2") "tok" ⟨"DEVICE"⟩
        (fun _ _ _ _ => .error (.storageFailure "connection reset"))
      = .error .loginFailed ∧
    compatPost unitBackend (.ok ()) "example.com"
        (.password (.user "john") "hunter2") "tok" ⟨"DEVICE"⟩
        (fun _ _ _ _ => .error (.storageFailure "connection reset"))
      ≠ .error (.internal "connection reset") ∧
    RouteError.loginFailed.into_response
      = { errcode := "M_UNAUTHORIZED", error := "Invalid username/password", status := 403 } := by
  refine ⟨rfl, ?_, rfl⟩
  simp [compatPost]

/-- C2 amended: only a failure of the initial `pool.acquire()` is propagated
as the `Internal` kind (`M_UNKNOWN`/500); every failure reported by the
`compat_login` storage collaborator, backend/storage failures included, is
mapped to the authentication-failure kind `LoginFailed`. -/
theorem compat_post_error_mapping (T : StorageBackend) (hs u p tok : String)
    (dev : Device)
    (cl : String → String → Device → String →
      Except CompatLoginError (CompatAccessToken × CompatSession T))
    (e : CompatLoginError) (sq : String)
    (h : cl u p dev tok = .error e) :
    compatPost T (.ok ()) hs (.password (.user u) p) tok dev cl = .error .loginFailed ∧
    compatPost T (.error sq) hs (.password (.user u) p) tok dev cl = .error (.internal sq) := by
  constructor
  · simp [compatPost, h]
  · rfl

/-- C2 amended witness: a storage failure from `compat_login` yields
`LoginFailed`, while an acquire failure yields `Internal`. -/
theorem compat_post_error_mapping_witness :
    compatPost unitBackend (.ok ()) "hs" (.password (.user "u") "p") "t" ⟨"d"⟩
        (fun _ _ _ _ => .error (.storageFailure "db")) = .error .loginFailed ∧
    compatPost unitBackend (.error "acq") "hs" (.password (.user "u") "p") "t" ⟨"d"⟩
        (fun _ _ _ _ => .error (.storageFailure "db")) = .error (.internal "acq") :=
  compat_post_error_mapping unitBackend "hs" "u" "p" "t" ⟨"d"⟩
    (fun _ _ _ _ => .error (.storageFailure "db")) (.storageFailure "db") "acq" rfl

/-- C3: when `compat_login` succeeds with a token and a session, the handler
returns a success body whose `access_token` is the token's `token` string,
whose `device_id` is the session's device, and whose `user_id` is
`"@" ++ session.user.username ++ ":" ++ homeserver`. -/
theorem compat_post_success (T : StorageBackend) (hs u p tok : String) (dev : Device)
    (cl : String → String → Device → String →
      Except CompatLoginError (CompatAccessToken × CompatSession T))
    (t : CompatAccessToken) (s : CompatSession T)
    (h : cl u p dev tok = .ok (t, s)) :
    compatPost T (.ok ()) hs (.password (.user u) p) tok dev cl
      = .ok { access_token := t.token, device_id := s.device,
              user_id := "@" ++ s.user.username ++ ":" ++ hs } := by
  simp [compatPost, h]

/-- C3 witness: with username `"john"` and homeserver `"example.com"`, the
returned `user_id` is `"@john:example.com"`. -/
theorem compat_post_success_witness :
    compatPost unitBackend (.ok ()) "example.com"
        (.password (.user "john") "pw") "tok" ⟨"DEV"⟩
        (fun _ _ dv tk =>
          .ok ({ jti := "jti", token := tk, expires_after := 3600, created_at := 0 },
               { user := { data := (), username := "john", sub := "123-456" }, device := dv }))
      = .ok { access_token := "tok", device_id := ⟨"DEV"⟩, user_id := "@john:example.com" } :=
  compat_post_success unitBackend "example.com" "john" "pw" "tok" ⟨"DEV"⟩ _ _ _ rfl

/-- C4: an authentication failure reported by `compat_login` makes the
handler fail with `LoginFailed` — a single opaque kind rendered as the
generic "Invalid username/password" message, not distinguishing an unknown
user from a wrong password — and no success body is ever returned. -/
theorem compat_post_auth_failure (T : StorageBackend) (hs u p tok : String)
    (dev : Device)
    (cl : String → String → Device → String →
      Except CompatLoginError (CompatAccessToken × CompatSession T))
    (h : cl u p dev tok = .error .authenticationFailure) :
    compatPost T (.ok ()) hs (.password (.user u) p) tok dev cl = .error .loginFailed ∧
    RouteError.loginFailed.into_response
      = { errcode := "M_UNAUTHORIZED", error := "Invalid username/password", status := 403 } ∧
    ∀ b : ResponseBody T,
      compatPost T (.ok ()) hs (.password (.user u) p) tok dev cl ≠ .ok b := by
  have h1 : compatPost T (.ok ()) hs (.password (.user u) p) tok dev cl
      = .error .loginFailed := by
    simp [compatPost, h]
  refine ⟨h1, rfl, fun b hb => ?_⟩
  rw [h1] at hb
  exact Except.noConfusion hb

/-- C4 witness: concrete bad credentials produce `LoginFailed`. -/
theorem compat_post_auth_failure_witness :
    compatPost unitBackend (.ok ()) "hs" (.password (.user "john") "bad") "t" ⟨"d"⟩
        (fun _ _ _ _ => .error .authenticationFailure) = .error .loginFailed :=
  (compat_post_auth_failure unitBackend "hs" "john" "bad" "t" ⟨"d"⟩
    (fun _ _ _ _ => .error .authenticationFailure) rfl).1

/-- C5: a request body that is not a password login with an `m.id.user`
identifier makes the handler return `Unsupported` (rendered
`M_UNRECOGNIZED`/400), and the outcome is independent of the generated
token, the generated device and the `compat_login` collaborator — the
handler returns before using any of them. -/
theorem compat_post_unsupported (T : StorageBackend) (hs : String)
    (input : RequestBody) (h : ∀ u p, input ≠ .password (.user u) p)
    (tok tok' : String) (dev dev' : Device)
    (cl cl' : String → String → Device → String →
      Except CompatLoginError (CompatAccessToken × CompatSession T)) :
    compatPost T (.ok ()) hs input tok dev cl = .error .unsupported ∧
    compatPost T (.ok ()) hs input tok dev cl
      = compatPost T (.ok ()) hs input tok' dev' cl' ∧
    RouteError.unsupported.into_response
      = { errcode := "M_UNRECOGNIZED", error := "Invalid login type", status := 400 } := by
  match input with
  | .password (.user u) p => exact absurd rfl (h u p)
  | .password .unsupported p => exact ⟨rfl, rfl, rfl⟩
  | .unsupported => exact ⟨rfl, rfl, rfl⟩

/-- C5 witness: an unsupported login type yields the `Unsupported` error. -/
theorem compat_post_unsupported_witness :
    compatPost unitBackend (.ok ()) "hs" .unsupported "t" ⟨"d"⟩
        (fun _ _ _ _ => .error .authenticationFailure) = .error .unsupported :=
  (compat_post_unsupported unitBackend "hs" .unsupported
    (fun _ _ hh => nomatch hh) "t" "t2" ⟨"d"⟩ ⟨"d2"⟩
    (fun _ _ _ _ => .error .authenticationFailure)
    (fun _ _ _ _ => .error .authenticationFailure)).1

/-- C10: the emails `post` handler is atomic with respect to failure: for
every form action, if any step (storage mutation, page re-render, or the
commit itself) fails, the handler returns an error and the committed
database state is unchanged; a success is returned only when the staged
mutation and the re-render both succeeded and the transaction was then
committed. -/
theorem emails_post_atomic {D R : Type} (deps : EmailsDeps D R) (db : D)
    (form : Form) :
    (∀ e, (emailsPost deps db form).1 = .error e → (emailsPost deps db form).2 = db) ∧
    (∀ r, (emailsPost deps db form).1 = .ok r →
      ∃ txn, emailsStage deps db form = .ok txn ∧ deps.render txn = .ok r ∧
        deps.commit txn = .ok (emailsPost deps db form).2) := by
  rcases hs : emailsStage deps db form with e | txn
  · have hep : emailsPost deps db form = (.error e, db) := by
      simp [emailsPost, hs]
    rw [hep]
    exact ⟨fun _ _ => rfl, fun r h2 => by simp at h2⟩
  · rcases hr : deps.render txn with e | reply
    · have hep : emailsPost deps db form = (.error e, db) := by
        simp [emailsPost, hs, hr]
      rw [hep]
      exact ⟨fun _ _ => rfl, fun r h2 => by simp at h2⟩
    · rcases hc : deps.commit txn with e | db2
      · have hep : emailsPost deps db form = (.error e, db) := by
          simp [emailsPost, hs, hr, hc]
        rw [hep]
        exact ⟨fun _ _ => rfl, fun r h2 => by simp at h2⟩
      · have hep : emailsPost deps db form = (.ok reply, db2) := by
          simp [emailsPost, hs, hr, hc]
        rw [hep]
        refine ⟨fun e he => by simp at he, fun r h2 => ?_⟩
        have hrr : reply = r := by simpa using h2
        subst hrr
        exact ⟨txn, rfl, hr, hc⟩

/-- C10 witness: with a failing page re-render, the handler errors and the
committed state (here `0`) is untouched even though the `add` mutation had
been staged. -/
theorem emails_post_atomic_witness :
    (emailsPost emailsDepsFailRender 0 (.add "new@example.com")).2 = 0 :=
  (emails_post_atomic emailsDepsFailRender 0 (.add "new@example.com")).1
    "template failure" rfl

end MasModel
